import Mathlib

/-!
Verification of the approute library (src/approute/__init__.py): a shallow
embedding of its content negotiator (`_is_json`), the `category_response`
helper, and the `AppRouteView` dispatch methods, together with theorems
settling the specification's claims.

Conventions of the embedding:
* Flask/Werkzeug request state is made explicit as a `Request` value.
* The flash queue is modelled as an output list of `Notification`s.
* Python dicts become association lists `List (String × Json)`; `dict.get`
  and `in` become `dictGet` / `dictContains` below.
* Werkzeug's `MIMEAccept.best_match` (a collaborator the negotiator calls)
  is embedded faithfully: entries already parsed and lowercased, qualities
  in thousandths (q=1.0 ↦ 1000), client entries sorted by (specificity,
  quality) descending, stable.
* Exceptions (`NotImplementedError`) become `Except AppError`.
-/

namespace AppRoute

/-- Minimal JSON value type for request/response bodies and envelopes. -/
inductive Json where
  | null
  | jbool (b : Bool)
  | num (n : Int)
  | str (s : String)
  | arr (xs : List Json)
  | obj (fields : List (String × Json))

/-- Python `d.get(k)` on a dict modelled as an association list: first
binding of the key, if any. -/
def dictGet (d : List (String × Json)) (k : String) : Option Json :=
  match d with
  | [] => none
  | (k2, v) :: rest => if k2 == k then some v else dictGet rest k

/-- Python `d.get(k, v0)`. -/
def dictGetD (d : List (String × Json)) (k : String) (v0 : Json) : Json :=
  (dictGet d k).getD v0

/-- Python `k in d` on a dict. -/
def dictContains (d : List (String × Json)) (k : String) : Bool :=
  (dictGet d k).isSome

/-- Python `s.split(d, 1)` when the delimiter occurs: the part before the
first occurrence and the part after it; `none` when `d not in s`. -/
def splitFirst (d : Char) : List Char → Option (List Char × List Char)
  | [] => none
  | c :: cs =>
    if c == d then some ([], cs)
    else
      match splitFirst d cs with
      | none => none
      | some (a, b) => some (c :: a, b)

/-- Python `value.split("/", 1)` guarded by `"/" in value`, as used by
Werkzeug's mimetype matching. -/
def splitSlash (s : String) : Option (String × String) :=
  match splitFirst '/' s.toList with
  | none => none
  | some (a, b) => some (String.mk a, String.mk b)

/-- Werkzeug `MIMEAccept._specificity`: `tuple(x != "*" for x in
value.partition("/")[::2])`. -/
def specificity (s : String) : Bool × Bool :=
  match splitSlash s with
  | some (t, sub) => (t != "*", sub != "*")
  | none => (s != "*", true)

/-- Werkzeug `MIMEAccept._value_matches value item`: whether the server
candidate `value` is matched by the client header entry `item`, wildcard
aware. -/
def value_matches (value item : String) : Bool :=
  match splitSlash item with
  | none => false
  | some (itemType, itemSub) =>
    if itemType == "*" && itemSub != "*" then false
    else
      match splitSlash value with
      | none => false
      | some (valueType, valueSub) =>
        if valueType == "*" && valueSub != "*" then false
        else
          ((itemType == "*" && itemSub == "*") || (valueType == "*" && valueSub == "*"))
          || (itemType == valueType
              && (itemSub == "*" || valueSub == "*" || itemSub == valueSub))

/-- Lexicographic rank of a specificity pair, `false < true` as in Python
tuple comparison. -/
def specKey (p : Bool × Bool) : Nat :=
  2 * (cond p.1 1 0) + cond p.2 1 0

/-- Strict descending comparison on ((specificity, quality)) keys, matching
Python tuple `>`. -/
def keyGtr (a b : (Bool × Bool) × Nat) : Bool :=
  specKey a.1 > specKey b.1 || (specKey a.1 == specKey b.1 && a.2 > b.2)

/-- Stable insertion for the descending sort performed by Werkzeug's
`Accept.__init__` (`sorted(values, key=(specificity, quality),
reverse=True)`). -/
def insertByKey (x : String × Nat) : List (String × Nat) → List (String × Nat)
  | [] => [x]
  | y :: ys =>
    if keyGtr (specificity y.1, y.2) (specificity x.1, x.2) then y :: insertByKey x ys
    else x :: y :: ys

/-- Client Accept entries sorted by (specificity, quality) descending,
stably, as Werkzeug stores them. -/
def sortAccept (l : List (String × Nat)) : List (String × Nat) :=
  l.foldr insertByKey []

/-- Werkzeug `Accept._best_single_match`: quality and specificity of the
first (hence best) client entry matching the server candidate. -/
def best_single_match (sorted : List (String × Nat)) (m : String) :
    Option (Nat × (Bool × Bool)) :=
  match sorted with
  | [] => none
  | (client, q) :: rest =>
    if value_matches m client then some (q, specificity client)
    else best_single_match rest m

/-- Werkzeug `Accept.best_match(matches, default=None)`: scan the server
candidates in order, keeping the one whose (quality, specificity) is
strictly greatest, skipping zero-quality matches; `none` when nothing
matched. -/
def best_match (accept : List (String × Nat)) (candidates : List String) : Option String :=
  let sorted := sortAccept accept
  (candidates.foldl
    (fun (st : Option String × Option (Nat × Nat)) server =>
      match best_single_match sorted server with
      | none => st
      | some (q, spec) =>
        if q = 0 then st
        else
          match st.2 with
          | none => (some server, some (q, specKey spec))
          | some best =>
            if q > best.1 || (q = best.1 && specKey spec > best.2) then
              (some server, some (q, specKey spec))
            else st)
    (none, none)).1

/-- Incoming request state: the lowercased mimetype from `Content-Type`,
the parsed `Accept` header (empty when the header is missing), the parsed
JSON body and the submitted form fields. -/
structure Request where
  mimetype : String
  accept : List (String × Nat)
  json : List (String × Json)
  form : List (String × Json)

/-- Flask `request.is_json`: mimetype is `application/json` or
`application/*+json`. -/
def request_is_json (mt : String) : Bool :=
  mt == "application/json"
    || ("application/".toList.isPrefixOf mt.toList
        && "+json".toList.isSuffixOf mt.toList)

/-- Source `MIMETYPES = ["application/json", "text/html"]`. -/
def MIMETYPES : List String := ["application/json", "text/html"]

/-- Source `_is_json()`: JSON when the request body is declared JSON, else
when the Accept header's best match over `MIMETYPES` is
`application/json`. -/
def _is_json (req : Request) : Bool :=
  if request_is_json req.mimetype then true
  else decide (best_match req.accept MIMETYPES = some "application/json")

/-- A flashed message: `content` is the `"message|category"` string passed
to `flash`, `channel` the flash category stream. -/
structure Notification where
  content : String
  channel : String

/-- Source `category_response`: in JSON mode return a
`{payload, status_code}` or `{message, status_code}` envelope and flash
nothing; otherwise derive the category from the status code when not given,
flash `"message|category"` on the `flash_category` stream, and return an
empty envelope. -/
def category_response (req : Request) (message : String) (status_code : Int)
    (category : Option String) (payload : Option (List (String × Json)))
    (flash_category : String) : List (String × Json) × List Notification :=
  if _is_json req then
    match payload with
    | some p => ([("payload", Json.obj p), ("status_code", Json.num status_code)], [])
    | none => ([("message", Json.str message), ("status_code", Json.num status_code)], [])
  else
    let category2 :=
      match category with
      | some c => c
      | none =>
        if status_code ≥ 500 then "danger"
        else if status_code ≥ 400 then "warning"
        else "success"
    ([], [⟨message ++ "|" ++ category2, flash_category⟩])

/-- Output of Flask's `url_for` collaborator: the endpoint name and the
arguments handed to it. -/
structure Url where
  endpoint : String
  args : List (String × String)

/-- Flask `url_for(endpoint, **args)`, consumed opaquely by this system. -/
def url_for (endpoint : String) (args : List (String × String)) : Url :=
  ⟨endpoint, args⟩

/-- Errors this layer can raise; it never catches them. -/
inductive AppError where
  | notImplementedError

/-- Response artifacts leaving the system: a JSON body with a status (the
status is the raw value of the `status_code` envelope key, an int in
practice), a rendered template, or an HTTP redirect. -/
inductive HttpResponse where
  | jsonBody (body : Json) (status : Json)
  | rendered (template : Option String) (context : List (String × Json))
  | redirect (location : Url)

/-- An overridden `handle_post` body: submitted values to the returned
envelope, plus the notifications it flashes. -/
def HandleFn : Type :=
  List (String × Json) → List (String × Json) × List Notification

/-- The `AppRouteView` class: configuration attributes plus the two
extension points (`handle_post` is `none` when a concrete route leaves the
`NotImplementedError`-raising default in place; `route` is the
`self.route` attribute naming the view's own route). -/
structure AppRouteView where
  template_name : Option String
  redirect_to : Option String
  redirect_args : List (String × String)
  route : String
  handle_post : Option HandleFn
  populate : List (String × String) → List (String × Json)

/-- Source `get_template_name`: returns `template_name` by default. -/
def get_template_name (v : AppRouteView) : Option String :=
  v.template_name

/-- Source `post_json`: take `request.json`, call `handle_post`, then emit
the payload when the envelope has one, else a `{message: ...}` object with
`"no output"` as the fallback text; status from `status_code` (default
200). -/
def post_json (v : AppRouteView) (req : Request) :
    Except AppError (HttpResponse × List Notification) :=
  match v.handle_post with
  | none => Except.error AppError.notImplementedError
  | some h =>
    let r := h req.json
    let result := r.1
    if dictContains result "payload" then
      Except.ok (HttpResponse.jsonBody (dictGetD result "payload" Json.null)
        (dictGetD result "status_code" (Json.num 200)), r.2)
    else
      Except.ok (HttpResponse.jsonBody
        (Json.obj [("message", dictGetD result "message" (Json.str "no output"))])
        (dictGetD result "status_code" (Json.num 200)), r.2)

/-- Source `post_html`: take `request.form`, call `handle_post` discarding
its result, then redirect to `redirect_to` when set, else to the view's own
`route`, with `redirect_args` in both cases. -/
def post_html (v : AppRouteView) (req : Request) :
    Except AppError (HttpResponse × List Notification) :=
  match v.handle_post with
  | none => Except.error AppError.notImplementedError
  | some h =>
    let r := h req.form
    match v.redirect_to with
    | some target => Except.ok (HttpResponse.redirect (url_for target v.redirect_args), r.2)
    | none => Except.ok (HttpResponse.redirect (url_for v.route v.redirect_args), r.2)

/-- Source `get_json`: serialize the `populate` mapping, status from its
`status_code` key (default 200). -/
def get_json (v : AppRouteView) (routeArgs : List (String × String)) :
    HttpResponse × List Notification :=
  let values := v.populate routeArgs
  (HttpResponse.jsonBody (Json.obj values) (dictGetD values "status_code" (Json.num 200)), [])

/-- Source `get_html`: render the configured template with the `populate`
mapping as context. -/
def get_html (v : AppRouteView) (routeArgs : List (String × String)) :
    HttpResponse × List Notification :=
  (HttpResponse.rendered (get_template_name v) (v.populate routeArgs), [])

/-- Source `get`: dispatch between `get_json` and `get_html` using the
negotiator. -/
def get (v : AppRouteView) (req : Request) (routeArgs : List (String × String)) :
    HttpResponse × List Notification :=
  if _is_json req then get_json v routeArgs else get_html v routeArgs

/-- Source `post`: dispatch between `post_json` and `post_html` using the
negotiator. -/
def post (v : AppRouteView) (req : Request) :
    Except AppError (HttpResponse × List Notification) :=
  if _is_json req then post_json v req else post_html v req

/-- Python `s.split(d)` for a one-character delimiter, over the character
list: splits at every occurrence, keeping empty pieces. -/
def splitAll (d : Char) : List Char → List (List Char)
  | [] => [[]]
  | c :: cs =>
    let r := splitAll d cs
    if c == d then [] :: r
    else
      match r with
      | [] => [[c]]
      | h :: t => (c :: h) :: t

/-- Python `s.split(d)` on strings, as a template does with
`flashed_message.split("|")`. -/
def pySplit (d : Char) (s : String) : List String :=
  (splitAll d s.toList).map String.mk

/-- Whether a JSON value is an object carrying the given key. -/
def Json.hasKey (j : Json) (k : String) : Bool :=
  match j with
  | Json.obj fields => dictContains fields k
  | _ => false

/-- A request whose Content-Type declares JSON. -/
def jsonReq : Request := ⟨"application/json", [], [], []⟩

/-- A request with no Accept header and a non-JSON Content-Type: the
negotiator classifies it as HTML. -/
def htmlReq : Request := ⟨"", [], [], []⟩

/-- A concrete overridden `handle_post` returning a message envelope. -/
def sampleHandle : HandleFn := fun _ =>
  ([("message", Json.str "ok"), ("status_code", Json.num 201)], [])

/-- A concrete overridden `handle_post` returning a payload envelope. -/
def payloadHandle : HandleFn := fun _ =>
  ([("payload", Json.obj [("id", Json.num 7)]), ("status_code", Json.num 200)], [])

/-- A concrete overridden `handle_post` returning the empty envelope, as
`category_response` does in HTML mode. -/
def emptyHandle : HandleFn := fun _ => ([], [])

/-- A concrete view with a configured redirect target. -/
def sampleView : AppRouteView :=
  ⟨some "device/register.html", some "index", [("page", "1")], "register",
    some sampleHandle, fun _ => []⟩

/-- A concrete view with no redirect target configured. -/
def selfRedirectView : AppRouteView :=
  ⟨none, none, [], "register", some sampleHandle, fun _ => []⟩

/-- A view leaving both extension points at their defaults: `handle_post`
raises and `populate` returns the empty mapping. -/
def defaultView : AppRouteView :=
  ⟨none, none, [], "index", none, fun _ => []⟩

/-- A concrete view whose handler returns a payload envelope. -/
def payloadView : AppRouteView :=
  ⟨none, none, [], "api", some payloadHandle, fun _ => []⟩

/-- A concrete view whose handler returns the empty envelope. -/
def emptyEnvelopeView : AppRouteView :=
  ⟨none, none, [], "api2", some emptyHandle, fun _ => []⟩

/-- C1: the negotiator classifies a request as JSON whenever its
Content-Type declares structured JSON, short-circuiting; otherwise exactly
when the best match of its Accept header over [application/json, text/html]
is application/json — so `Accept: application/json` yields JSON,
`Accept: text/html` yields HTML, and a missing Accept header yields HTML. -/
theorem c1_negotiator_classification (req : Request) :
    (request_is_json req.mimetype = true → _is_json req = true)
    ∧ (request_is_json req.mimetype = false →
        (_is_json req = true ↔ best_match req.accept MIMETYPES = some "application/json"))
    ∧ (request_is_json req.mimetype = false → req.accept = [("application/json", 1000)] →
        _is_json req = true)
    ∧ (request_is_json req.mimetype = false → req.accept = [("text/html", 1000)] →
        _is_json req = false)
    ∧ (request_is_json req.mimetype = false → req.accept = [] → _is_json req = false) := by
  refine ⟨fun h => ?_, fun h => ?_, fun h ha => ?_, fun h ha => ?_, fun h ha => ?_⟩
  · simp [_is_json, h]
  · simp [_is_json, h]
  all_goals simp [_is_json, h, ha]
  all_goals decide

/-- Witness for C1: a request with a plain-text Content-Type and
`Accept: application/json` is classified as JSON. -/
theorem c1_negotiator_classification_witness :
    _is_json ⟨"text/plain", [("application/json", 1000)], [], []⟩ = true :=
  (c1_negotiator_classification ⟨"text/plain", [("application/json", 1000)], [], []⟩).2.2.1
    (by decide) rfl

/-- C2: a POST dispatched in HTML mode with an overridden `handle_post`
always ends in a redirect — to the configured `redirect_to` when set, else
back to the view's own route — and the handler's returned envelope is
discarded. -/
theorem c2_post_html_always_redirects (v : AppRouteView) (h : HandleFn) (req : Request)
    (hhtml : _is_json req = false) (hover : v.handle_post = some h) :
    post v req = Except.ok (HttpResponse.redirect
      (url_for ((v.redirect_to).getD v.route) v.redirect_args), (h req.form).2) := by
  cases hrd : v.redirect_to <;> simp [post, hhtml, post_html, hover, hrd]

/-- Witness for C2: the sample view with `redirect_to = "index"` redirects
there after an HTML POST. -/
theorem c2_post_html_always_redirects_witness :
    post sampleView htmlReq = Except.ok (HttpResponse.redirect
      (url_for ((sampleView.redirect_to).getD sampleView.route) sampleView.redirect_args),
      (sampleHandle htmlReq.form).2) :=
  c2_post_html_always_redirects sampleView sampleHandle htmlReq (by decide) rfl

/-- C3: in JSON mode `category_response` returns exactly
`{payload, status_code}` when a payload is given, else exactly
`{message, status_code}`, and queues no notification; in particular
`category_response "Saved" 200 payload={"id": 7}` returns exactly
`{payload: {id: 7}, status_code: 200}`. -/
theorem c3_category_response_json_mode (req : Request) (hjson : _is_json req = true)
    (message : String) (status_code : Int) (category : Option String)
    (payload : Option (List (String × Json))) (flash_category : String) :
    category_response req message status_code category payload flash_category
      = (match payload with
         | some p => [("payload", Json.obj p), ("status_code", Json.num status_code)]
         | none => [("message", Json.str message), ("status_code", Json.num status_code)], [])
    ∧ category_response req "Saved" 200 none (some [("id", Json.num 7)]) "notification"
      = ([("payload", Json.obj [("id", Json.num 7)]), ("status_code", Json.num 200)], []) := by
  refine ⟨?_, ?_⟩
  · cases payload <;> simp [category_response, hjson]
  · simp [category_response, hjson]

/-- Witness for C3 at the concrete JSON request. -/
theorem c3_category_response_json_mode_witness :
    category_response jsonReq "Saved" 200 none (some [("id", Json.num 7)]) "notification"
      = ([("payload", Json.obj [("id", Json.num 7)]), ("status_code", Json.num 200)], []) :=
  (c3_category_response_json_mode jsonReq (by decide) "Saved" 200 none
    (some [("id", Json.num 7)]) "notification").2

/-- C4: in HTML mode with no explicit category, `category_response`
computes "danger" for status ≥ 500, "warning" for status ≥ 400 and
"success" otherwise, queues one Notification carrying the message, that
category and the channel, and returns the empty envelope; in particular
`category_response "Failed" 500` queues a "danger" notification and
returns an empty envelope. -/
theorem c4_category_response_html_mode (req : Request) (hhtml : _is_json req = false)
    (message : String) (status_code : Int) (payload : Option (List (String × Json)))
    (flash_category : String) :
    category_response req message status_code none payload flash_category
      = ([], [⟨message ++ "|" ++
          (if status_code ≥ 500 then "danger"
           else if status_code ≥ 400 then "warning" else "success"), flash_category⟩])
    ∧ category_response req "Failed" 500 none none "notification"
      = ([], [⟨"Failed|danger", "notification"⟩]) := by
  refine ⟨?_, ?_⟩ <;> simp [category_response, hhtml]

/-- Witness for C4 at the concrete HTML request. -/
theorem c4_category_response_html_mode_witness :
    category_response htmlReq "Failed" 500 none none "notification"
      = ([], [⟨"Failed|danger", "notification"⟩]) :=
  (c4_category_response_html_mode htmlReq (by decide) "Failed" 500 none "notification").2

/-- C5: a POST dispatched in JSON mode parses the JSON body, passes it to
`handle_post`, serializes the envelope's payload as the body when the
payload key is present and a `{message: ...}` object otherwise, and takes
the status from the envelope's `status_code` key, defaulting to 200. -/
theorem c5_post_json_dispatch (v : AppRouteView) (h : HandleFn) (req : Request)
    (hjson : _is_json req = true) (hover : v.handle_post = some h) :
    post v req = Except.ok (HttpResponse.jsonBody
      (match dictGet (h req.json).1 "payload" with
       | some p => p
       | none => Json.obj [("message", dictGetD (h req.json).1 "message" (Json.str "no output"))])
      (dictGetD (h req.json).1 "status_code" (Json.num 200)), (h req.json).2) := by
  cases hp : dictGet (h req.json).1 "payload" <;>
    simp [post, hjson, post_json, hover, dictContains, dictGetD, hp]

/-- Witness for C5: a handler returning a payload envelope makes the JSON
POST serialize the payload with the envelope's status. -/
theorem c5_post_json_dispatch_witness :
    post payloadView jsonReq = Except.ok
      (HttpResponse.jsonBody (Json.obj [("id", Json.num 7)]) (Json.num 200), []) :=
  c5_post_json_dispatch payloadView payloadHandle jsonReq (by decide) rfl

/-- C6: a GET dispatched in JSON mode serializes the `populate` mapping as
the body, with status the mapping's `status_code` value when present, else
200. -/
theorem c6_get_json_dispatch (v : AppRouteView) (req : Request)
    (routeArgs : List (String × String)) (hjson : _is_json req = true) :
    get v req routeArgs = (HttpResponse.jsonBody (Json.obj (v.populate routeArgs))
      (dictGetD (v.populate routeArgs) "status_code" (Json.num 200)), []) := by
  simp [get, hjson, get_json]

/-- Witness for C6: the default view serializes its empty mapping with
status 200. -/
theorem c6_get_json_dispatch_witness :
    get defaultView jsonReq [] = (HttpResponse.jsonBody (Json.obj []) (Json.num 200), []) :=
  c6_get_json_dispatch defaultView jsonReq [] (by decide)

/-- C7 counterexample: the read path serializes the `populate` mapping
verbatim, so a JSON GET on the default view (whose `populate` returns the
empty mapping) produces a body carrying neither a payload key nor a
message key — refuting the claim that every JSON response body carries
exactly one of the two. -/
theorem c7_json_body_exactly_one_counterexample :
    get defaultView jsonReq [] = (HttpResponse.jsonBody (Json.obj []) (Json.num 200), [])
    ∧ Json.hasKey (Json.obj []) "payload" = false
    ∧ Json.hasKey (Json.obj []) "message" = false :=
  ⟨rfl, rfl, rfl⟩

/-- C7 amended: every envelope returned by `category_response` in JSON
mode carries exactly one of the keys payload and message — never both,
never neither; JSON read responses serialize the `populate` mapping
unchanged and may carry neither. -/
theorem c7_envelope_exactly_one (req : Request) (hjson : _is_json req = true)
    (message : String) (status_code : Int) (category : Option String)
    (payload : Option (List (String × Json))) (flash_category : String) :
    dictContains (category_response req message status_code category payload flash_category).1
        "payload"
      ≠ dictContains (category_response req message status_code category payload flash_category).1
        "message" := by
  cases payload <;> simp [category_response, hjson, dictContains, dictGet]

/-- Witness for the amended C7 at a concrete JSON-mode call. -/
theorem c7_envelope_exactly_one_witness :
    dictContains (category_response jsonReq "Saved" 200 none none "notification").1 "payload"
      ≠ dictContains (category_response jsonReq "Saved" 200 none none "notification").1
        "message" :=
  c7_envelope_exactly_one jsonReq (by decide) "Saved" 200 none none "notification"

/-- C8: with `handle_post` left at its default, both write paths fail with
the `NotImplementedError`, which this layer does not catch: the dispatch
result is the propagated error, not a response. -/
theorem c8_handle_post_default_not_implemented (v : AppRouteView) (req : Request)
    (hdefault : v.handle_post = none) :
    post_json v req = Except.error AppError.notImplementedError
    ∧ post_html v req = Except.error AppError.notImplementedError := by
  refine ⟨?_, ?_⟩ <;> simp [post_json, post_html, hdefault]

/-- Witness for C8 on the default view. -/
theorem c8_handle_post_default_not_implemented_witness :
    post_json defaultView jsonReq = Except.error AppError.notImplementedError
    ∧ post_html defaultView jsonReq = Except.error AppError.notImplementedError :=
  c8_handle_post_default_not_implemented defaultView jsonReq rfl

/-- C9: a notification flashed in HTML mode with message "Saved" and
category "success" is queued as the single string "Saved|success", and
splitting that string on the delimiter recovers the original message and
category unchanged. -/
theorem c9_notification_roundtrip :
    (category_response htmlReq "Saved" 200 (some "success") none "notification").2
      = [⟨"Saved|success", "notification"⟩]
    ∧ pySplit '|' "Saved|success" = ["Saved", "success"] :=
  ⟨rfl, by decide⟩

/-- C10: a POST dispatched in JSON mode whose handler envelope carries
neither payload nor message serializes exactly `{"message": "no output"}`,
with status 200 unless the envelope carries a `status_code`. -/
theorem c10_post_json_no_output_fallback (v : AppRouteView) (h : HandleFn) (req : Request)
    (hjson : _is_json req = true) (hover : v.handle_post = some h)
    (hp : dictGet (h req.json).1 "payload" = none)
    (hm : dictGet (h req.json).1 "message" = none) :
    post v req = Except.ok (HttpResponse.jsonBody
      (Json.obj [("message", Json.str "no output")])
      (dictGetD (h req.json).1 "status_code" (Json.num 200)), (h req.json).2) := by
  simp [post, hjson, post_json, hover, dictContains, dictGetD, hp, hm]

/-- Witness for C10: the empty envelope yields the "no output" body with
status 200. -/
theorem c10_post_json_no_output_fallback_witness :
    post emptyEnvelopeView jsonReq = Except.ok (HttpResponse.jsonBody
      (Json.obj [("message", Json.str "no output")]) (Json.num 200), []) :=
  c10_post_json_no_output_fallback emptyEnvelopeView emptyHandle jsonReq (by decide) rfl rfl rfl

end AppRoute
